import Mathlib

/-!
Verification development for the `detour-rs` inline-hooking library.

The development shallowly embeds the static-detour wrapper
(`src/detours/statik.rs`) and, where the crate's lower layers
(`GenericDetour`, the code patcher and the trampoline builder) are not part
of the sources at hand, models them from the specification (§4.4–§4.5, §8
of the design document).  Atomic pointers holding optionally-present boxed
values are embedded as `Option` fields; fallible Rust functions returning
`Result` become functions into `Except Error`; mutation through `&self`
becomes explicit state passing, with each operation returning its outcome
together with the post-state.
-/

namespace DetourRs

/-- Decidable equality for `Except`, used to evaluate the embedded
operations on concrete slots. -/
instance {e a : Type} [DecidableEq e] [DecidableEq a] : DecidableEq (Except e a) := fun x y =>
  match x, y with
  | Except.ok u, Except.ok v =>
    if h : u = v then isTrue (by simp [h]) else isFalse (by simp [h])
  | Except.error u, Except.error v =>
    if h : u = v then isTrue (by simp [h]) else isFalse (by simp [h])
  | Except.ok _, Except.error _ => isFalse (by simp)
  | Except.error _, Except.ok _ => isFalse (by simp)

/-- The public error taxonomy (spec §7; `error.rs` of the crate). -/
inductive Error where
  | UnsupportedInstruction
  | UnsupportedBranchDisplacement
  | MemoryProtection
  | AlreadyInitialized
  | NotInitialized
deriving DecidableEq, Repr

/-- Modelled from the spec: the Detour Handle of §4.5 (`GenericDetour`,
whose source is not among the files at hand).  It owns the patch region's
saved original bytes, the jump-to-replacement patch bytes, the current
bytes at the target, the relocated trampoline copy, and the atomic enabled
flag.  `protectOk` models whether the OS grants the page-protection change
required by the code patcher (§4.4). -/
structure GenericDetour where
  savedBytes : List Nat
  patchBytes : List Nat
  targetBytes : List Nat
  trampolineBytes : List Nat
  enabled : Bool
  protectOk : Bool
deriving DecidableEq, Repr

namespace GenericDetour

/-- Modelled from the spec: construction performs decode, plan and build
but never writes to the target (§4.5), so the target still holds its
original bytes, the trampoline holds the relocated copy of them, and the
handle starts disabled. -/
def new (origBytes patchBytes : List Nat) (protectOk : Bool) : GenericDetour :=
  { savedBytes := origBytes
    patchBytes := patchBytes
    targetBytes := origBytes
    trampolineBytes := origBytes
    enabled := false
    protectOk := protectOk }

/-- Modelled from the spec: `enable` (§4.5).  Already enabled is a no-op
success; otherwise the code patcher writes the jump bytes (failing with
`MemoryProtection` when the protection change is denied) and the flag is
set. -/
def enable (d : GenericDetour) : Except Error GenericDetour :=
  if d.enabled then Except.ok d
  else if d.protectOk then
    Except.ok { d with targetBytes := d.patchBytes, enabled := true }
  else Except.error Error.MemoryProtection

/-- Modelled from the spec: `disable` (§4.5).  Already disabled is a no-op
success; otherwise the code patcher restores exactly the saved original
bytes and the flag is cleared. -/
def disable (d : GenericDetour) : Except Error GenericDetour :=
  if d.enabled then
    if d.protectOk then
      Except.ok { d with targetBytes := d.savedBytes, enabled := false }
    else Except.error Error.MemoryProtection
  else Except.ok d

/-- Modelled from the spec: the handle's enabled flag, read by
`is_enabled`. -/
def isEnabled (d : GenericDetour) : Bool :=
  d.enabled

/-- Modelled from the spec: invoking the target executes the bytes at its
address.  When they hold the jump-to-replacement patch, control reaches the
replacement; when they hold the original bytes, the original body runs;
anything else is a torn, undefined instruction stream (§5), modelled as
`none`.  `origVal` and `replVal` are the values the original body and the
replacement return. -/
def invokeTarget (d : GenericDetour) (origVal replVal : Int) : Option Int :=
  if d.targetBytes = d.patchBytes then some replVal
  else if d.targetBytes = d.savedBytes then some origVal
  else none

/-- Modelled from the spec: invoking through the trampoline entry runs the
relocated copy of the displaced instructions and falls through into the
unpatched remainder, reproducing the original behavior whenever that copy
matches the saved original bytes (§4.3, §4.5). -/
def invokeTrampoline (d : GenericDetour) (origVal : Int) : Option Int :=
  if d.trampolineBytes = d.savedBytes then some origVal
  else none

end GenericDetour

/-- The static detour slot of `src/detours/statik.rs`: an `AtomicPtr` to
the boxed active closure (null when absent), an `AtomicPtr` to the boxed
detour handle (null when absent), and the stored `ffi` function value.
`F` is the raw function type `T`, `C` the type of replacement callables. -/
structure StaticDetour (F C : Type) where
  closure : Option C
  detour : Option GenericDetour
  ffi : F
deriving DecidableEq, Repr

/-- One observable step of `set_detour`: installing the new callable by the
atomic swap, or releasing (dropping) the previous one afterwards. -/
inductive SwapEvent (C : Type) where
  | installed (c : C)
  | released (c : C)
deriving DecidableEq, Repr

namespace StaticDetour

variable {F C : Type}

/-- Embeds `StaticDetour::__new`: both atomic pointers start null. -/
def __new (ffi : F) : StaticDetour F C :=
  { closure := none, detour := none, ffi := ffi }

/-- Embeds `StaticDetour::set_detour` together with the ordered trace of its
observable steps: the source first swaps the new boxed closure in
(line 160–162), and only then, when the previous pointer was non-null,
drops the previous closure (line 163–165).  No initialization check is
performed. -/
def set_detourTrace (s : StaticDetour F C) (c : C) :
    StaticDetour F C × List (SwapEvent C) :=
  let s' := { s with closure := some c }
  match s.closure with
  | none => (s', [SwapEvent.installed c])
  | some p => (s', [SwapEvent.installed c, SwapEvent.released p])

/-- Embeds `StaticDetour::set_detour`: the slot state after the swap-and-release
sequence. -/
def set_detour (s : StaticDetour F C) (c : C) : StaticDetour F C :=
  (s.set_detourTrace c).fst

/-- Embeds `StaticDetour::initialize`.  The source first runs
`GenericDetour::new(target, self.ffi)?` — its fallible result, produced by
code outside the files at hand, is passed in as `newResult`, and a
construction error propagates before anything else (the `?` on line 109).
Then the compare-exchange on the `detour` pointer installs the new handle
only when the slot was empty, failing with `AlreadyInitialized` otherwise
(lines 110–121); on success `set_detour(closure)` installs the callable
(line 123).  The pair returned is (outcome, post-state). -/
def init (s : StaticDetour F C) (newResult : Except Error GenericDetour)
    (closure : C) : Except Error Unit × StaticDetour F C :=
  match newResult with
  | Except.error e => (Except.error e, s)
  | Except.ok d =>
    match s.detour with
    | some _ => (Except.error Error.AlreadyInitialized, s)
    | none => (Except.ok (), ({ s with detour := some d }).set_detour closure)

/-- Embeds `StaticDetour::enable`: load the detour pointer, fail with
`NotInitialized` when null, otherwise delegate to the handle's `enable`
(lines 129–136).  A failing delegate leaves the handle unchanged
(spec §4.5). -/
def enable (s : StaticDetour F C) : Except Error Unit × StaticDetour F C :=
  match s.detour with
  | none => (Except.error Error.NotInitialized, s)
  | some d =>
    match d.enable with
    | Except.error e => (Except.error e, { s with detour := some d })
    | Except.ok d' => (Except.ok (), { s with detour := some d' })

/-- Embeds `StaticDetour::disable`: load the detour pointer, fail with
`NotInitialized` when null, otherwise delegate to the handle's `disable`
(lines 139–146). -/
def disable (s : StaticDetour F C) : Except Error Unit × StaticDetour F C :=
  match s.detour with
  | none => (Except.error Error.NotInitialized, s)
  | some d =>
    match d.disable with
    | Except.error e => (Except.error e, { s with detour := some d })
    | Except.ok d' => (Except.ok (), { s with detour := some d' })

/-- Embeds `StaticDetour::is_enabled`: map the optionally-present handle to its
enabled flag, defaulting to `false` (lines 149–153).  Never an error. -/
def is_enabled (s : StaticDetour F C) : Bool :=
  match s.detour with
  | none => false
  | some d => d.isEnabled

/-- Embeds `StaticDetour::trampoline`: `Ok` of the handle's trampoline reference
(the source's `&()`), or `NotInitialized` when the detour pointer is null
(lines 169–175). -/
def trampoline (s : StaticDetour F C) : Except Error Unit :=
  match s.detour with
  | none => Except.error Error.NotInitialized
  | some _ => Except.ok ()

/-- Embeds `StaticDetour::__detour`: reads the closure pointer and turns null into
`Err(NotInitialized)`; the source immediately applies `.expect`, so the
error case is a panic in the running program, not an ordinary error result
(lines 179–184). -/
def __detour (s : StaticDetour F C) : Except Error C :=
  match s.closure with
  | none => Except.error Error.NotInitialized
  | some c => Except.ok c

end StaticDetour


namespace GenericDetour

/-- A handle that is already enabled answers `enable` with itself. -/
theorem enable_of_enabled (d : GenericDetour) (h : d.enabled = true) :
    d.enable = Except.ok d := by
  simp [enable, h]

/-- A handle that is already disabled answers `disable` with itself. -/
theorem disable_of_disabled (d : GenericDetour) (h : d.enabled = false) :
    d.disable = Except.ok d := by
  simp [disable, h]

/-- A successful `enable` leaves the handle enabled. -/
theorem enabled_of_enable_ok {d d' : GenericDetour} (h : d.enable = Except.ok d') :
    d'.enabled = true := by
  cases hen : d.enabled <;> cases hp : d.protectOk <;>
    simp [enable, hen, hp] at h <;> simp [← h, hen]

/-- A successful `disable` leaves the handle disabled. -/
theorem disabled_of_disable_ok {d d' : GenericDetour} (h : d.disable = Except.ok d') :
    d'.enabled = false := by
  cases hen : d.enabled <;> cases hp : d.protectOk <;>
    simp [disable, hen, hp] at h <;> simp [← h, hen]

end GenericDetour

/-- C3: `enable` and `disable` on a static slot are idempotent — after a
successful `enable` the resulting slot answers a second `enable` with a
no-op success and the identical state (no double-patch, no error), and
symmetrically for `disable`. -/
theorem statik_enable_disable_idempotent {F C : Type} (s s' : StaticDetour F C) :
    (s.enable = (Except.ok (), s') → s'.enable = (Except.ok (), s')) ∧
    (s.disable = (Except.ok (), s') → s'.disable = (Except.ok (), s')) := by
  constructor
  · intro h
    cases hd : s.detour with
    | none => simp [StaticDetour.enable, hd] at h
    | some d =>
      cases he : d.enable with
      | error e => simp [StaticDetour.enable, hd, he] at h
      | ok d' =>
        simp [StaticDetour.enable, hd, he] at h
        rw [← h]
        simp [StaticDetour.enable,
          GenericDetour.enable_of_enabled d' (GenericDetour.enabled_of_enable_ok he)]
  · intro h
    cases hd : s.detour with
    | none => simp [StaticDetour.disable, hd] at h
    | some d =>
      cases he : d.disable with
      | error e => simp [StaticDetour.disable, hd, he] at h
      | ok d' =>
        simp [StaticDetour.disable, hd, he] at h
        rw [← h]
        simp [StaticDetour.disable,
          GenericDetour.disable_of_disabled d' (GenericDetour.disabled_of_disable_ok he)]

/-- A concrete disabled handle used to evaluate the lifecycle operations. -/
def dOff : GenericDetour := GenericDetour.new [1, 2, 3, 4, 5] [233, 0, 0, 0, 0] true

/-- The concrete handle `dOff` after its jump patch has been written. -/
def dOn : GenericDetour := { dOff with targetBytes := [233, 0, 0, 0, 0], enabled := true }

/-- A concrete initialized, disabled static slot. -/
def sOff : StaticDetour Nat Nat := { closure := some 7, detour := some dOff, ffi := 0 }

/-- The concrete slot `sOff` after a successful `enable`. -/
def sOn : StaticDetour Nat Nat := { closure := some 7, detour := some dOn, ffi := 0 }

/-- C3 witness: enabling the concretely enabled slot and disabling the
concretely disabled slot are no-op successes. -/
theorem statik_enable_disable_idempotent_witness :
    sOn.enable = (Except.ok (), sOn) ∧ sOff.disable = (Except.ok (), sOff) :=
  ⟨(statik_enable_disable_idempotent sOff sOn).1 (by decide),
   (statik_enable_disable_idempotent sOn sOff).2 (by decide)⟩

/-- C5: on a slot whose detour pointer is still null, `enable` and
`disable` both fail with `NotInitialized` and return the slot unchanged. -/
theorem statik_uninitialized_enable_disable {F C : Type} (s : StaticDetour F C)
    (h : s.detour = none) :
    s.enable = (Except.error Error.NotInitialized, s) ∧
    s.disable = (Except.error Error.NotInitialized, s) := by
  constructor <;> simp [StaticDetour.enable, StaticDetour.disable, h]

/-- A concrete fresh static slot, as produced by the `static_detour!`
macro before any call. -/
def sFresh : StaticDetour Nat Nat := StaticDetour.__new 0

/-- C5 witness: the fresh slot answers `enable` and `disable` with
`NotInitialized`, unchanged. -/
theorem statik_uninitialized_enable_disable_witness :
    sFresh.enable = (Except.error Error.NotInitialized, sFresh) ∧
    sFresh.disable = (Except.error Error.NotInitialized, sFresh) :=
  statik_uninitialized_enable_disable sFresh rfl

/-- C6: `is_enabled` is a total boolean observer — `false`, not an error,
on an uninitialized slot, and the underlying handle's enabled flag
otherwise. -/
theorem statik_is_enabled_total {F C : Type} (s : StaticDetour F C) :
    (s.detour = none → s.is_enabled = false) ∧
    ∀ d, s.detour = some d → s.is_enabled = d.isEnabled := by
  constructor
  · intro h
    simp [StaticDetour.is_enabled, h]
  · intro d h
    simp [StaticDetour.is_enabled, h, GenericDetour.isEnabled]

/-- C6 witness: `is_enabled` is `false` on the fresh slot and reports the
handle's flag on an initialized, enabled slot. -/
theorem statik_is_enabled_total_witness :
    sFresh.is_enabled = false ∧ sOn.is_enabled = dOn.isEnabled :=
  ⟨(statik_is_enabled_total sFresh).1 rfl,
   (statik_is_enabled_total sOn).2 dOn rfl⟩

/-- C4: `set_detour` installs the supplied callable as the active one
regardless of the enabled state (handle and enabled flag untouched), and
the trace of its steps shows the previous callable — when one existed — is
released only after the swap has installed the new one. -/
theorem set_detour_swap_then_release {F C : Type} (s : StaticDetour F C) (c : C) :
    (s.set_detour c).closure = some c ∧
    (s.set_detour c).detour = s.detour ∧
    (s.set_detour c).is_enabled = s.is_enabled ∧
    ((s.closure = none ∧
        (s.set_detourTrace c).snd = [SwapEvent.installed c]) ∨
      ∃ p, s.closure = some p ∧
        (s.set_detourTrace c).snd = [SwapEvent.installed c, SwapEvent.released p]) := by
  cases hc : s.closure with
  | none =>
    refine ⟨?_, ?_, ?_, Or.inl ⟨rfl, ?_⟩⟩ <;>
      simp [StaticDetour.set_detour, StaticDetour.set_detourTrace,
        StaticDetour.is_enabled, hc]
  | some p =>
    refine ⟨?_, ?_, ?_, Or.inr ⟨p, rfl, ?_⟩⟩ <;>
      simp [StaticDetour.set_detour, StaticDetour.set_detourTrace,
        StaticDetour.is_enabled, hc]

/-- C8: a successful `initialize` installs the supplied closure exactly as
`set_detour` would — the post-state is literally `set_detour` applied to
the slot holding the new handle, and the active callable agrees with what
`set_detour` alone would install. -/
theorem init_installs_closure {F C : Type} (s : StaticDetour F C)
    (d : GenericDetour) (c : C) (h : s.detour = none) :
    (s.init (Except.ok d) c).fst = Except.ok () ∧
    (s.init (Except.ok d) c).snd = ({ s with detour := some d }).set_detour c ∧
    (s.init (Except.ok d) c).snd.closure = (s.set_detour c).closure := by
  refine ⟨by simp [StaticDetour.init, h], by simp [StaticDetour.init, h], ?_⟩
  simp [StaticDetour.init, h, StaticDetour.set_detour, StaticDetour.set_detourTrace]
  cases s.closure <;> rfl

/-- C8 witness: initializing the fresh slot installs closure `7`, exactly
as `set_detour 7` on the handle-bearing slot would. -/
theorem init_installs_closure_witness :
    (sFresh.init (Except.ok dOff) 7).fst = Except.ok () ∧
    (sFresh.init (Except.ok dOff) 7).snd
      = ({ sFresh with detour := some dOff }).set_detour 7 ∧
    (sFresh.init (Except.ok dOff) 7).snd.closure = (sFresh.set_detour 7).closure :=
  init_installs_closure sFresh dOff 7 rfl

/-- C9: whenever `initialize` fails — construction error or
`AlreadyInitialized` — the slot is returned unchanged: the failing call's
closure is never installed and any previously installed state stays. -/
theorem init_failure_preserves_slot {F C : Type} (s : StaticDetour F C)
    (r : Except Error GenericDetour) (c : C) (e : Error)
    (h : (s.init r c).fst = Except.error e) :
    (s.init r c).snd = s := by
  cases r with
  | error e0 => rfl
  | ok d =>
    cases hd : s.detour with
    | some d0 => simp [StaticDetour.init, hd]
    | none => simp [StaticDetour.init, hd] at h

/-- The fresh slot after a first successful initialization installing
handle `dOff` and closure `7`. -/
def sInited : StaticDetour Nat Nat := (sFresh.init (Except.ok dOff) 7).snd

/-- C9 witness: a second `initialize` on the concretely initialized slot
fails and returns the slot unchanged, closure included. -/
theorem init_failure_preserves_slot_witness :
    (sInited.init (Except.ok dOff) 8).snd = sInited :=
  init_failure_preserves_slot sInited (Except.ok dOff) 8 Error.AlreadyInitialized (by decide)

/-- C10: `set_detour` needs no prior initialization — on a fresh slot it
installs the callable (the detour pointer stays null and no check is made),
and its trace shows no previous callable is released on this first call. -/
theorem set_detour_on_fresh_slot {F C : Type} (ffi : F) (c : C) :
    ((StaticDetour.__new ffi : StaticDetour F C).set_detour c).closure = some c ∧
    ((StaticDetour.__new ffi : StaticDetour F C).set_detour c).detour = none ∧
    ((StaticDetour.__new ffi : StaticDetour F C).set_detourTrace c).snd
      = [SwapEvent.installed c] := by
  refine ⟨?_, ?_, ?_⟩ <;>
    simp [StaticDetour.__new, StaticDetour.set_detour, StaticDetour.set_detourTrace]

/-- C2: the concrete hook scenario of spec §8, on the modelled engine —
for a target whose body returns `n`, hooked by a replacement returning
`10`: before `enable` the target returns `n`; after a successful `enable`
the target returns `10` while the trampoline entry returns `n`; `disable`
restores the patched bytes exactly to the pre-hook bytes, and the target
returns `n` again. -/
theorem detour_lifecycle_scenario (origBytes patchBytes : List Nat) (n : Int)
    (h : patchBytes ≠ origBytes) :
    (GenericDetour.new origBytes patchBytes true).invokeTarget n 10 = some n ∧
    ∃ d', (GenericDetour.new origBytes patchBytes true).enable = Except.ok d' ∧
      d'.invokeTarget n 10 = some 10 ∧
      d'.invokeTrampoline n = some n ∧
      ∃ d'', d'.disable = Except.ok d'' ∧
        d''.targetBytes = origBytes ∧
        d''.invokeTarget n 10 = some n := by
  have h' : origBytes ≠ patchBytes := fun hh => h hh.symm
  refine ⟨?_,
    { GenericDetour.new origBytes patchBytes true with
        targetBytes := patchBytes, enabled := true }, ?_, ?_, ?_,
    GenericDetour.new origBytes patchBytes true, ?_, ?_, ?_⟩ <;>
    simp [GenericDetour.new, GenericDetour.enable, GenericDetour.disable,
      GenericDetour.invokeTarget, GenericDetour.invokeTrampoline, h']

/-- C2 witness: the scenario evaluated on concrete bytes — an original
prologue `[1,2,3,4,5]`, the 5-byte relative-jump patch `[233,0,0,0,0]`,
and an original return value of `42`. -/
theorem detour_lifecycle_scenario_witness :
    (GenericDetour.new [1, 2, 3, 4, 5] [233, 0, 0, 0, 0] true).invokeTarget 42 10
      = some 42 ∧
    ∃ d', (GenericDetour.new [1, 2, 3, 4, 5] [233, 0, 0, 0, 0] true).enable
        = Except.ok d' ∧
      d'.invokeTarget 42 10 = some 10 ∧
      d'.invokeTrampoline 42 = some 42 ∧
      ∃ d'', d'.disable = Except.ok d'' ∧
        d''.targetBytes = [1, 2, 3, 4, 5] ∧
        d''.invokeTarget 42 10 = some 42 :=
  detour_lifecycle_scenario [1, 2, 3, 4, 5] [233, 0, 0, 0, 0] 42 (by decide)

/-- C1 counterexample: after a first successful initialization, a second
`initialize` call whose underlying handle construction fails returns that
construction error (propagated by the `?` before the compare-exchange) —
not `AlreadyInitialized` — refuting the claim that every subsequent call
fails with `AlreadyInitialized`. -/
theorem init_second_call_counterexample :
    (sFresh.init (Except.ok dOff) 7).fst = Except.ok () ∧
    sInited.detour = some dOff ∧
    (sInited.init (Except.error Error.UnsupportedInstruction) 8).fst
      = Except.error Error.UnsupportedInstruction ∧
    (sInited.init (Except.error Error.UnsupportedInstruction) 8).fst
      ≠ Except.error Error.AlreadyInitialized := by
  decide

/-- C1 amended: a first `initialize` that succeeds installs its handle; a
subsequent call whose handle construction succeeds fails with
`AlreadyInitialized`; and every subsequent call — one with a failing
construction included — leaves the handle installed by the first call
unchanged. -/
theorem init_once_amended {F C : Type} (s : StaticDetour F C)
    (d d0 : GenericDetour) (c : C) (r : Except Error GenericDetour) :
    (s.detour = none →
      (s.init (Except.ok d) c).fst = Except.ok () ∧
      (s.init (Except.ok d) c).snd.detour = some d) ∧
    (s.detour = some d0 →
      (s.init (Except.ok d) c).fst = Except.error Error.AlreadyInitialized) ∧
    (s.detour = some d0 → (s.init r c).snd.detour = some d0) := by
  refine ⟨fun h => ⟨?_, ?_⟩, fun h => ?_, fun h => ?_⟩
  · simp [StaticDetour.init, h]
  · simp [StaticDetour.init, h, StaticDetour.set_detour, StaticDetour.set_detourTrace]
    cases s.closure <;> rfl
  · simp [StaticDetour.init, h]
  · cases r with
    | error e => simpa [StaticDetour.init] using h
    | ok d1 => simp [StaticDetour.init, h]

/-- C1 witness: the amended statement on the concrete slot — the first
call succeeds and installs `dOff`; a second call with a successfully
constructed handle fails with `AlreadyInitialized`; a second call with a
failing construction still leaves `dOff` installed. -/
theorem init_once_amended_witness :
    ((sFresh.init (Except.ok dOff) 7).fst = Except.ok () ∧
      (sFresh.init (Except.ok dOff) 7).snd.detour = some dOff) ∧
    (sInited.init (Except.ok dOn) 8).fst = Except.error Error.AlreadyInitialized ∧
    (sInited.init (Except.error Error.MemoryProtection) 8).snd.detour = some dOff :=
  ⟨(init_once_amended sFresh dOff dOff 7 (Except.ok dOff)).1 rfl,
   (init_once_amended sInited dOn dOff 8 (Except.ok dOn)).2.1 (by decide),
   (init_once_amended sInited dOn dOff 8 (Except.error Error.MemoryProtection)).2.2
     (by decide)⟩

/-- A slot on which `set_detour` was called although `initialize` never
succeeded: the closure pointer is set while the detour pointer is null. -/
def sSwapped : StaticDetour Nat Nat := sFresh.set_detour 42

/-- C7 counterexample: on `sSwapped`, `initialize` has never succeeded
(the detour pointer is still null), yet the `__detour`-style access finds
the callable installed by `set_detour` and succeeds — no `NotInitialized`
panic — refuting the claim that this access always fails fatally before
`initialize` has succeeded. -/
theorem uninit_detour_access_counterexample :
    sSwapped.detour = none ∧
    sSwapped.__detour = Except.ok 42 ∧
    sSwapped.__detour ≠ Except.error Error.NotInitialized := by
  decide

/-- C7 amended: the `__detour`-style access fails exactly when no callable
is installed — on a fresh slot, hence in particular before any
`initialize` or `set_detour`, it yields `Err(NotInitialized)`, which the
source escalates to a panic via `.expect` rather than returning an
ordinary error; the trampoline access behind the generated `call` yields
`NotInitialized` whenever no handle is installed; and the callable access
succeeds whenever a callable is present, even without `initialize`. -/
theorem detour_access_fatal_amended {F C : Type} (s : StaticDetour F C) :
    (s.closure = none → s.__detour = Except.error Error.NotInitialized) ∧
    (∀ c, s.closure = some c → s.__detour = Except.ok c) ∧
    (s.detour = none → s.trampoline = Except.error Error.NotInitialized) := by
  refine ⟨fun h => ?_, fun c h => ?_, fun h => ?_⟩ <;>
    simp [StaticDetour.__detour, StaticDetour.trampoline, h]

/-- C7 witness: the fresh slot's callable access and trampoline access
both yield `NotInitialized` (a panic at the generated call site), while
the swapped slot's access succeeds. -/
theorem detour_access_fatal_amended_witness :
    sFresh.__detour = Except.error Error.NotInitialized ∧
    sSwapped.__detour = Except.ok 42 ∧
    sFresh.trampoline = Except.error Error.NotInitialized :=
  ⟨(detour_access_fatal_amended sFresh).1 rfl,
   (detour_access_fatal_amended sSwapped).2.1 42 rfl,
   (detour_access_fatal_amended sFresh).2.2 rfl⟩

end DetourRs
